import Mathlib

/-!
Shallow embedding of the schema-driven reference-traversal and hybrid-query
construction engine of the Weaviate MCP server (src/src/weaviate.ts and
src/src/mcp.ts), together with theorems settling the frozen claims about it.

Untyped JSON schema values are modelled by explicit structures carrying the
fields the source reads; a possibly-missing field is an `Option`, a JS object
used only through `Object.keys` is the list of its keys, and `undefined`
schema snapshots are `Option Schema` with `none`.
-/

namespace WeaviateMcp

/-- A property of a Weaviate class: its name and its data-type list
(src/src/weaviate.ts reads `p.name` and `p.dataType`). -/
structure PropertySchema where
  name : String
  dataType : List String
deriving Repr, DecidableEq

/-- A Weaviate class as the source reads it: `class` (the name), `properties`,
optional `vectorizer` string, and `moduleConfig` modelled by its key list
(only `Object.keys(cls.moduleConfig).length` is ever used). -/
structure ClassSchema where
  className : String
  properties : List PropertySchema
  vectorizer : Option String
  moduleConfigKeys : Option (List String)
deriving Repr, DecidableEq

/-- The full schema snapshot: `schema.classes`. -/
structure Schema where
  classes : List ClassSchema
deriving Repr, DecidableEq

/-- JS `String.prototype.toLowerCase` on the character range the server's
class names use: lower-case each character. -/
def jsToLower (s : String) : String :=
  String.mk (s.data.map Char.toLower)

/-- A character JS `String.prototype.trim` removes (the ASCII whitespace
range). -/
def isJsSpace (c : Char) : Bool :=
  c == ' ' || c == '\t' || c == '\n' || c == '\r' || c == '\x0b' || c == '\x0c'

/-- JS `String.prototype.trim`: whitespace stripped from both ends. -/
def jsTrim (s : String) : String :=
  String.mk (((s.data.dropWhile isJsSpace).reverse.dropWhile isJsSpace).reverse)

/-- The regex test `/^[A-Z]/.test(dt)`: first character is an ASCII capital. -/
def isRefDataType (dt : String) : Bool :=
  match dt.data with
  | [] => false
  | c :: _ => 'A' ≤ c && c ≤ 'Z'

/-- The uppercase-initial data-type entries of a property:
`(p.dataType || []).filter((dt) => /^[A-Z]/.test(dt))`. -/
def refTargets (p : PropertySchema) : List String :=
  p.dataType.filter isRefDataType

/-- `schema?.classes?.find((c) => c.class === className)` (case-sensitive). -/
def findClass (s : Schema) (className : String) : Option ClassSchema :=
  s.classes.find? (fun c => c.className == className)

/-- `schema?.classes?.find((c) => c.class?.toLowerCase() === className?.toLowerCase())`. -/
def findClassCI (s : Schema) (className : String) : Option ClassSchema :=
  s.classes.find? (fun c => jsToLower c.className == jsToLower className)

/-- The vectorizer/module-config eligibility test on one class
(src/src/weaviate.ts lines 212-216). -/
def classEligible (cls : ClassSchema) : Bool :=
  (match cls.vectorizer with
   | some v => jsTrim v != "" && jsToLower (jsTrim v) != "none"
   | none => false)
  || (match cls.moduleConfigKeys with
      | some ks => decide (0 < ks.length)
      | none => false)

/-- `hasVectorizer` (src/src/weaviate.ts lines 208-220): resolve the class by
case-insensitive name and test its vectorizer / module configuration;
`false` when the schema is unavailable or the class is not found. -/
def hasVectorizer (schema : Option Schema) (className : String) : Bool :=
  match schema with
  | none => false
  | some s =>
    match findClassCI s className with
    | none => false
    | some cls => classEligible cls

/-- An outgoing reference edge `{ prop, targets }` as built by `refsForClass`. -/
structure RefEdge where
  prop : String
  targets : List String
deriving Repr, DecidableEq

/-- `refsForClass` (src/src/weaviate.ts lines 160-174): the properties of the
class whose data-type list has at least one uppercase-initial entry, each with
exactly those entries as targets. -/
def refsForClass (schema : Option Schema) (className : String) : List RefEdge :=
  match schema with
  | none => []
  | some s =>
    let props := ((findClass s className).map (fun c => c.properties)).getD []
    (props.map (fun p => RefEdge.mk p.name (refTargets p))).filter
      (fun x => !x.targets.isEmpty)

/-- An incoming reference edge `{ fromClass, prop }` as built by
`incomingRefsForClass`. -/
structure InRefEdge where
  fromClass : String
  prop : String
deriving Repr, DecidableEq

/-- `incomingRefsForClass` (src/src/weaviate.ts lines 176-191): scan every
class and every property, collecting `(class, property)` pairs whose
uppercase-initial targets contain the target class. -/
def incomingRefsForClass (schema : Option Schema) (targetClass : String) : List InRefEdge :=
  match schema with
  | none => []
  | some s =>
    (s.classes.map (fun c =>
      c.properties.filterMap (fun p =>
        if targetClass ∈ refTargets p then some (InRefEdge.mk c.className p.name)
        else none))).flatten

/-- `refTargetsForProp` (src/src/weaviate.ts lines 193-202): the
uppercase-initial targets of one named property, or `[]` when the schema,
class or property is missing. -/
def refTargetsForProp (schema : Option Schema) (className propName : String) : List String :=
  match schema with
  | none => []
  | some s =>
    let cls := findClass s className
    let prop := (((cls.map (fun c => c.properties)).getD []).find?
      (fun p => p.name == propName))
    ((prop.map refTargets).getD [])

/-- `Array.from(new Set(xs))` on a JS array of strings: duplicates removed,
order of first occurrence preserved (JS `Set` iterates in insertion order). -/
def dedupFirst : List String → List String
  | [] => []
  | x :: xs => x :: dedupFirst (xs.filter (fun y => y != x))
termination_by l => l.length
decreasing_by
  simp only [List.length_cons]
  exact Nat.lt_succ_of_le (List.length_filter_le _ _)

/-- An object carrying (at most) a `name`, as the traversal reads reference
entries (`belongsToFluxo`, `hasEntidades` elements). -/
structure NamedObj where
  name : Option String
deriving Repr, DecidableEq

/-- A `hasFicheiros` entry with its nested `hasEntidades` list. -/
structure FicheiroRow where
  hasEntidades : List NamedObj
deriving Repr, DecidableEq

/-- A result row as `queryOrigin` reads it: `r.name`, `r.belongsToFluxo`,
`r.hasFicheiros[*].hasEntidades[*].name`. -/
structure EtapaRow where
  name : Option String
  belongsToFluxo : List NamedObj
  hasFicheiros : List FicheiroRow
deriving Repr, DecidableEq

/-- The raw store response for `queryOrigin`: `result.data.Get`, an object
keyed by class name; modelled as an association list. -/
structure QueryResultO where
  dataGet : List (String × List EtapaRow)
deriving Repr, DecidableEq

/-- The entity names collected by the nested loops of `queryOrigin`
(src/src/weaviate.ts lines 258-263): for every `hasFicheiros` entry, every
`hasEntidades` entry whose `name` is truthy (present and non-empty). -/
def collectEntidades (r : EtapaRow) : List String :=
  ((r.hasFicheiros.map (fun f => f.hasEntidades)).flatten).filterMap
    (fun e => match e.name with
      | some n => if n != "" then some n else none
      | none => none)

/-- The simplified row `{ etapa, fluxo, entidades }` of `queryOrigin`
(src/src/weaviate.ts lines 254-264). -/
structure SimpleRow where
  etapa : Option String
  fluxo : Option String
  entidades : List String
deriving Repr, DecidableEq

/-- `queryOrigin`'s per-row simplification: `etapa = r.name`,
`fluxo = (r.belongsToFluxo || [])[0]?.name ?? null`, and the deduplicated
entity names. -/
def simplifyRow (r : EtapaRow) : SimpleRow :=
  { etapa := r.name
    fluxo := r.belongsToFluxo.head?.bind (fun e => e.name)
    entidades := dedupFirst (collectEntidades r) }

/-- The class-name list of a possibly-missing schema:
`schema?.classes?.map((c) => c.class) ?? []`. -/
def schemaClassNames (schema : Option Schema) : List String :=
  (schema.map (fun s => s.classes.map (fun c => c.className))).getD []

/-- The declared property names of the (case-sensitively) named class:
`(schema?.classes?.find((c) => c.class === collection)?.properties || [])
.map((p) => p.name)`. -/
def classPropNames (schema : Option Schema) (className : String) : List String :=
  (((schema.bind (fun s => findClass s className)).map
    (fun c => c.properties.map (fun p => p.name))).getD [])

/-- The missed-fields line `Missed fields on C: a, b, ...` shared by both
traversals, with the slice bound `cap` (12 for base classes, 10 for the
one-hop traversal's target classes). -/
def missedLine (className : String) (missed : List String) (cap : Nat) : String :=
  let shown := missed.take cap
  "Missed fields on " ++ className ++ ": " ++ String.intercalate ", " shown ++
    (if decide (shown.length < missed.length) then ", ..." else "")

/-- The report of `queryOrigin` (src/src/weaviate.ts lines 250-353) as its
list of lines, built from the fetched schema (`none` when the schema fetch
failed) and the raw store response. -/
def queryOriginLines (schema : Option Schema) (collection q : String) (limit : Int)
    (targetProps : List String) (res : QueryResultO) : List String :=
  let useHybrid := hasVectorizer schema collection
  let rows := (List.lookup "Etapa" res.dataGet).getD []
  let simplified := rows.map simplifyRow
  let classes := schemaClassNames schema
  let classProps := classPropNames schema collection
  let missedFields := classProps.filter (fun p => !(targetProps.contains p))
  let etapaOutgoing := refsForClass schema collection
  let etapaIncoming := incomingRefsForClass schema collection
  ["Hybrid search results for Etapa (query=\"" ++ q ++ "\", limit=" ++ toString limit ++ ")."]
  ++ (if useHybrid then [] else
      ["Warning: class " ++ collection ++
        " has no vectorizer configured; hybrid search was skipped."])
  ++ (if classes.isEmpty then [] else
      ["Collections available in the schema: " ++ String.intercalate ", " classes ++ "."])
  ++ (if simplified.isEmpty then ["No Etapa matched your query."] else
      "Matched Etapas with their linked Fluxo and Entidade(s):" ::
        simplified.map (fun item =>
          let entTxt := if item.entidades.isEmpty then "none"
            else String.intercalate ", " item.entidades
          "- Etapa: " ++ item.etapa.getD "undefined" ++ " | Fluxo: " ++
            item.fluxo.getD "none" ++ " | Entidades (via Ficheiro): " ++ entTxt))
  ++ (if missedFields.isEmpty then [] else [missedLine collection missedFields 12])
  ++ ["You can deepen the search by following these connections:"]
  ++ (if etapaOutgoing.isEmpty then [] else
      "From Etapa (outgoing refs):" ::
        etapaOutgoing.map (fun r => "- " ++ r.prop ++ " -> " ++
          String.intercalate " | " r.targets))
  ++ (if etapaIncoming.isEmpty then [] else
      "To Etapa (incoming refs):" ::
        etapaIncoming.map (fun r => "- " ++ r.fromClass ++ "." ++ r.prop ++ " -> Etapa"))

/-- `queryOrigin` end to end: a query-execution failure is wrapped as
`Query failed: ...` (src/src/weaviate.ts lines 354-356); a successful
execution yields the joined report lines. The schema argument is the result
of `getSchema().catch(() => undefined)`. -/
def queryOrigin (schema : Option Schema) (collection q : String) (limit : Int)
    (targetProps : List String) (exec : Except String QueryResultO) : Except String String :=
  match exec with
  | .error e => .error ("Query failed: " ++ e)
  | .ok res => .ok (String.intercalate "\n" (queryOriginLines schema collection q limit targetProps res))

/-- A referenced object in a `queryWithRefs` row: its `name` (possibly
missing) and its `JSON.stringify` text, which `toName` falls back to. -/
structure RefObj where
  name : Option String
  dump : String
deriving Repr, DecidableEq

/-- `toName` (src/src/weaviate.ts line 399) on an object: `o.name ?? JSON.stringify(o)`. -/
def toName (o : RefObj) : String := o.name.getD o.dump

/-- A `queryWithRefs` result row: its `name`, its `JSON.stringify` text, and
its reference-valued fields (the row is read by the dynamic key `r[refProp]`). -/
structure RefRow where
  name : Option String
  dump : String
  fields : List (String × List RefObj)
deriving Repr, DecidableEq

/-- The raw store response for `queryWithRefs`: `result.data.Get` keyed by
class name. -/
structure QueryResultR where
  dataGet : List (String × List RefRow)
deriving Repr, DecidableEq

/-- The field projection of `queryWithRefs` (src/src/weaviate.ts lines
372-382): base properties, then one `... on T \x7b fields \x7d` fragment per
resolved target class, or a fragment-less reference block when no target
resolves. -/
def queryWithRefsFields (schema : Option Schema) (collection refProp : String)
    (baseProps refProps : List String) : String :=
  let targets := refTargetsForProp schema collection refProp
  let baseFields := String.intercalate " " baseProps
  let refBlock :=
    if decide (0 < targets.length) then
      " " ++ refProp ++ " \x7b " ++
        String.intercalate " " (targets.map (fun t =>
          "... on " ++ t ++ " \x7b " ++ String.intercalate " " refProps ++ " \x7d")) ++ " \x7d"
    else
      " " ++ refProp ++ " \x7b " ++ String.intercalate " " refProps ++ " \x7d"
  jsTrim (baseFields ++ refBlock)

/-- A summarized `queryWithRefs` row: the base label and the referenced labels
(src/src/weaviate.ts lines 401-407). -/
def summarizeRefRow (refProp : String) (r : RefRow) : String × List String :=
  let base := r.name.getD r.dump
  let refsArr := (List.lookup refProp r.fields).getD []
  (base, (refsArr.map toName).filter (fun s => s != ""))

/-- The report of `queryWithRefs` (src/src/weaviate.ts lines 398-478) as its
list of lines. -/
def queryWithRefsLines (schema : Option Schema) (collection refProp q : String) (limit : Int)
    (baseProps refProps : List String) (res : QueryResultR) : List String :=
  let targets := refTargetsForProp schema collection refProp
  let useHybrid := hasVectorizer schema collection
  let rows := (List.lookup collection res.dataGet).getD []
  let summarized := rows.map (summarizeRefRow refProp)
  let classes := schemaClassNames schema
  let outgoing := refsForClass schema collection
  let incoming := incomingRefsForClass schema collection
  let classProps := classPropNames schema collection
  let missedBaseFields := classProps.filter (fun p => !(baseProps.contains p))
  ["Hybrid search for " ++ collection ++ " following reference '" ++ refProp ++
    "' (query=\"" ++ q ++ "\", limit=" ++ toString limit ++ ")."]
  ++ (if useHybrid then [] else
      ["Warning: class " ++ collection ++
        " has no vectorizer configured; hybrid search was skipped."])
  ++ (if classes.isEmpty then [] else
      ["Collections available: " ++ String.intercalate ", " classes ++ "."])
  ++ (if missedBaseFields.isEmpty then [] else [missedLine collection missedBaseFields 12])
  ++ (match schema with
      | none => []
      | some s =>
        if targets.isEmpty then [] else
          (targets.map (fun t =>
            let tProps := classPropNames (some s) t
            let missedRef := tProps.filter (fun p => !(refProps.contains p))
            if missedRef.isEmpty then [] else [missedLine t missedRef 10])).flatten)
  ++ (if summarized.isEmpty then
      ["No " ++ collection ++ " matched your query or no '" ++ refProp ++
        "' references found."]
    else
      let targetLabel := if decide (0 < targets.length) then String.intercalate " | " targets
        else "UnknownTarget"
      ("Traversed '" ++ refProp ++ "' -> " ++ targetLabel ++ ":") ::
        summarized.map (fun item =>
          let refsText := if item.2.isEmpty then "none" else String.intercalate ", " item.2
          "- " ++ collection ++ ": " ++ item.1 ++ " | " ++ refProp ++ ": " ++ refsText))
  ++ ["You can deepen the search by following these connections:"]
  ++ (if outgoing.isEmpty then [] else
      ("From " ++ collection ++ " (outgoing refs):") ::
        outgoing.map (fun r => "- " ++ r.prop ++ " -> " ++ String.intercalate " | " r.targets))
  ++ (if incoming.isEmpty then [] else
      ("To " ++ collection ++ " (incoming refs):") ::
        incoming.map (fun r => "- " ++ r.fromClass ++ "." ++ r.prop ++ " -> " ++ collection))

/-- `queryWithRefs` end to end: a query-execution failure is wrapped as
`Query with refs failed: ...` (src/src/weaviate.ts lines 479-481); a
successful execution yields the joined report lines. -/
def queryWithRefs (schema : Option Schema) (collection refProp q : String) (limit : Int)
    (baseProps refProps : List String) (exec : Except String QueryResultR) :
    Except String String :=
  match exec with
  | .error e => .error ("Query with refs failed: " ++ e)
  | .ok res => .ok (String.intercalate "\n"
      (queryWithRefsLines schema collection refProp q limit baseProps refProps res))

/-- A built GraphQL Get request as the source assembles one: class name,
space-joined field projection, an optional hybrid clause carrying the raw
query text, and an optional limit (`withLimit` is called only when
`limit > 0`). -/
structure QuerySpec where
  className : String
  fields : String
  hybrid : Option String
  limit : Option Int
deriving Repr, DecidableEq

/-- `if (limit > 0) qb = qb.withLimit(limit)`. -/
def mkLimit (limit : Int) : Option Int :=
  if 0 < limit then some limit else none

/-- The request built by `query` (src/src/weaviate.ts lines 69-97). The
fetched schema is taken to mirror the call (line 76) but line 78 hardcodes
`useHybrid = true` — the `hasVectorizer` call on line 77 is commented out —
so the hybrid clause is always attached. -/
def querySpec (schema : Option Schema) (collection q : String) (targetProps : List String)
    (limit : Int) : QuerySpec :=
  let _ := schema
  let useHybrid := true
  { className := collection
    fields := String.intercalate " " targetProps
    hybrid := if useHybrid then some q else none
    limit := mkLimit limit }

/-- The request built by `generateText` (src/src/weaviate.ts lines 105-131),
including the generative clause. -/
structure GenerateSpec where
  className : String
  fields : String
  groupedTask : String
  groupedProperties : List String
  hybrid : Option String
  limit : Option Int
deriving Repr, DecidableEq

/-- `generateText`'s request: hybrid clause iff `hasVectorizer` holds. -/
def generateTextSpec (schema : Option Schema) (collection q : String)
    (targetProps : List String) (limit : Int) : GenerateSpec :=
  let useHybrid := hasVectorizer schema collection
  { className := collection
    fields := String.intercalate " " targetProps
    groupedTask := "Answer briefly: " ++ q
    groupedProperties := targetProps
    hybrid := if useHybrid then some q else none
    limit := mkLimit limit }

/-- The string `generateText` returns (src/src/weaviate.ts lines 128-131),
with `json` the serialized store response: when the class is not
hybrid-eligible, a hybrid-generation-skipped warning is prepended. -/
def generateTextReturn (schema : Option Schema) (collection json : String) : String :=
  let useHybrid := hasVectorizer schema collection
  if useHybrid then json
  else "Warning: class " ++ collection ++
    " has no vectorizer configured; hybrid generation skipped.\n" ++ json

/-- The string `query` returns (src/src/weaviate.ts lines 94-97): the warning
branch mirrors line 96, but it is dead code because line 78 hardcodes
`useHybrid = true`, so the raw serialized response is always returned. -/
def queryReturn (schema : Option Schema) (collection json : String) : String :=
  let _ := schema
  let useHybrid := true
  if useHybrid then json
  else "Warning: class " ++ collection ++
    " has no vectorizer configured; hybrid search skipped.\n" ++ json

/-- The request built by `queryOrigin` (src/src/weaviate.ts lines 237-248):
hybrid clause iff `hasVectorizer` holds. -/
def queryOriginSpec (schema : Option Schema) (collection q : String) (limit : Int)
    (targetProps : List String) : QuerySpec :=
  let useHybrid := hasVectorizer schema collection
  { className := collection
    fields := String.intercalate " " targetProps
    hybrid := if useHybrid then some q else none
    limit := mkLimit limit }

/-- The request built by `queryWithRefs` (src/src/weaviate.ts lines 384-395):
the reference-aware projection, hybrid clause iff `hasVectorizer` holds. -/
def queryWithRefsSpec (schema : Option Schema) (collection refProp q : String) (limit : Int)
    (baseProps refProps : List String) : QuerySpec :=
  let useHybrid := hasVectorizer schema collection
  { className := collection
    fields := queryWithRefsFields schema collection refProp baseProps refProps
    hybrid := if useHybrid then some q else none
    limit := mkLimit limit }

/-- `COLLECTION_CACHE_TTL_MS` (src/src/mcp.ts line 17). -/
def COLLECTION_CACHE_TTL_MS : Nat := 60000

/-- The collection-name cache cell `{ names, fetchedAt }` (src/src/mcp.ts line 73). -/
structure CollectionCache where
  names : List String
  fetchedAt : Nat
deriving Repr, DecidableEq

/-- The names the store's schema yields (src/src/mcp.ts line 418):
`schema.classes.map((cls) => cls.class).filter(Boolean)`. -/
def storeCollectionNames (store : Schema) : List String :=
  (store.classes.map (fun c => c.className)).filter (fun n => n != "")

/-- `getCollectionNames` (src/src/mcp.ts lines 410-426), with the upstream
store and clock passed explicitly. Returns the names, the updated cache cell,
and whether a schema fetch reached the store. -/
def getCollectionNames (store : Schema) (now : Nat) (cache : Option CollectionCache)
    (forceRefresh : Bool) : List String × Option CollectionCache × Bool :=
  match cache with
  | some c =>
    if !forceRefresh && decide (now - c.fetchedAt < COLLECTION_CACHE_TTL_MS) then
      (c.names, some c, false)
    else
      let names := storeCollectionNames store
      (names, some (CollectionCache.mk names now), true)
  | none =>
    let names := storeCollectionNames store
    (names, some (CollectionCache.mk names now), true)

/-- The outcome of `resolveCollection`: the resolved name or the error
message, the cache cell left behind, whether the initial (non-forced) lookup
fetched, whether a forced refresh was performed, and whether the final
`getClassSchema` call was reached. -/
structure ResolveOutcome where
  result : Except String String
  cache : Option CollectionCache
  plainFetch : Bool
  forcedFetch : Bool
  classSchemaFetched : Bool
deriving Repr

/-- The tail of `resolveCollection` once a candidate name is fixed
(src/src/mcp.ts lines 397-407): if the name is not in the cached list, force
exactly one refresh; if it is still absent, fail with the full current list
(or `none`); otherwise fetch the class schema and resolve. -/
def resolveWithName (store : Schema) (now : Nat) (cache1 : Option CollectionCache)
    (f1 : Bool) (avail1 : List String) (name : String) : ResolveOutcome :=
  if avail1.contains name then
    { result := .ok name, cache := cache1, plainFetch := f1, forcedFetch := false
      classSchemaFetched := true }
  else
    let (avail2, cache2, _) := getCollectionNames store now cache1 true
    if avail2.contains name then
      { result := .ok name, cache := cache2, plainFetch := f1, forcedFetch := true
        classSchemaFetched := true }
    else
      let list := if decide (0 < avail2.length) then String.intercalate ", " avail2 else "none"
      { result := .error ("Collection '" ++ name ++ "' was not found. Available collections: "
          ++ list)
        cache := cache2, plainFetch := f1, forcedFetch := true, classSchemaFetched := false }

/-- `resolveCollection` (src/src/mcp.ts lines 382-408): trim the candidate,
default to the first cached name when absent, then resolve via
`resolveWithName`. -/
def resolveCollection (store : Schema) (now : Nat) (cache : Option CollectionCache)
    (candidate : Option String) : ResolveOutcome :=
  let trimmed := candidate.map (fun s => jsTrim s)
  let collectionName : Option String :=
    match trimmed with
    | some t => if t != "" then some t else none
    | none => none
  let (avail1, cache1, f1) := getCollectionNames store now cache false
  match collectionName with
  | none =>
    if avail1.isEmpty then
      { result := .error "No collections are available in the Weaviate schema."
        cache := cache1, plainFetch := f1, forcedFetch := false, classSchemaFetched := false }
    else
      resolveWithName store now cache1 f1 avail1 (avail1.headD "")
  | some name => resolveWithName store now cache1 f1 avail1 name

/-- `validateTargetProperties` (src/src/mcp.ts lines 364-380): deduplicate the
requested properties, then fail on the first one not declared on the class,
naming all allowed properties; otherwise return the deduplicated list. -/
def validateTargetProperties (collection : String) (classSchema : ClassSchema)
    (targetProperties : List String) : Except String (List String) :=
  let uniqueProps := dedupFirst targetProperties
  let allowedProps := dedupFirst (classSchema.properties.map (fun p => p.name))
  match uniqueProps.find? (fun p => !(allowedProps.contains p)) with
  | some p => .error ("Property '" ++ p ++ "' does not exist in collection '" ++ collection ++
      "', what exists is: " ++ String.intercalate ", " allowedProps)
  | none => .ok uniqueProps

/-- The `weaviate-query` tool handler (src/src/mcp.ts lines 232-260) up to the
point where a store query would be issued: resolve the collection, validate
the properties, then build the query request. The second component counts the
store queries executed (0 whenever resolution or validation fails). -/
def queryToolRun (store : Schema) (now : Nat) (cache : Option CollectionCache)
    (candidate : Option String) (classSchemaOf : String → ClassSchema)
    (q : String) (targetProperties : List String) (limit : Option Int) :
    Except String QuerySpec × Nat :=
  let out := resolveCollection store now cache candidate
  match out.result with
  | .error e => (.error e, 0)
  | .ok name =>
    match validateTargetProperties name (classSchemaOf name) targetProperties with
    | .error e => (.error e, 0)
    | .ok props =>
      let effectiveLimit := limit.getD 3
      (.ok (querySpec (some store) name q props effectiveLimit), 1)

/-! ## Helper lemmas -/

theorem dedupFirst_mem (a : String) : (l : List String) → (a ∈ dedupFirst l ↔ a ∈ l)
  | [] => by simp [dedupFirst]
  | x :: xs => by
    rw [dedupFirst]
    by_cases hax : a = x
    · subst hax; simp
    · simp only [List.mem_cons, hax, false_or]
      rw [dedupFirst_mem a (xs.filter (fun y => y != x))]
      simp [List.mem_filter, hax]
termination_by l => l.length
decreasing_by
  simp only [List.length_cons]
  exact Nat.lt_succ_of_le (List.length_filter_le _ _)

theorem dedupFirst_nodup : (l : List String) → (dedupFirst l).Nodup
  | [] => by simp [dedupFirst]
  | x :: xs => by
    rw [dedupFirst]
    refine List.nodup_cons.mpr ⟨?_, dedupFirst_nodup (xs.filter (fun y => y != x))⟩
    intro hmem
    have := (dedupFirst_mem x _).mp hmem
    simp [List.mem_filter] at this
termination_by l => l.length
decreasing_by
  simp only [List.length_cons]
  exact Nat.lt_succ_of_le (List.length_filter_le _ _)

theorem dedupFirst_sublist : (l : List String) → (dedupFirst l).Sublist l
  | [] => by simp [dedupFirst]
  | x :: xs => by
    rw [dedupFirst]
    exact List.Sublist.cons₂ x
      ((dedupFirst_sublist (xs.filter (fun y => y != x))).trans (List.filter_sublist xs))
termination_by l => l.length
decreasing_by
  simp only [List.length_cons]
  exact Nat.lt_succ_of_le (List.length_filter_le _ _)

/-- With no duplicate class names, `find?` by name finds exactly the classes
of the schema with that name. -/
theorem find?_class_eq_iff (s : Schema) (C : String) (cls : ClassSchema)
    (hnd : (s.classes.map (fun c => c.className)).Nodup) :
    s.classes.find? (fun c => c.className == C) = some cls ↔
      cls ∈ s.classes ∧ cls.className = C := by
  constructor
  · intro h
    refine ⟨List.mem_of_find?_eq_some h, ?_⟩
    have := List.find?_some h
    simpa using this
  · rintro ⟨hm, hn⟩
    have hsome : (s.classes.find? (fun c => c.className == C)).isSome := by
      rw [List.find?_isSome]
      exact ⟨cls, hm, by simp [hn]⟩
    obtain ⟨cls', hfind⟩ := Option.isSome_iff_exists.mp hsome
    have hm' : cls' ∈ s.classes := List.mem_of_find?_eq_some hfind
    have hn' : cls'.className = C := by simpa using List.find?_some hfind
    have : cls' = cls := List.inj_on_of_nodup_map hnd hm' hm (by rw [hn, hn'])
    rwa [this] at hfind

theorem classEligible_iff (c : ClassSchema) :
    classEligible c = true ↔
      ((∃ v, c.vectorizer = some v ∧ jsTrim v ≠ "" ∧ jsToLower (jsTrim v) ≠ "none") ∨
        (∃ ks, c.moduleConfigKeys = some ks ∧ ks ≠ [])) := by
  unfold classEligible
  cases hv : c.vectorizer <;> cases hk : c.moduleConfigKeys <;>
    simp [List.length_pos, and_assoc]

/-! ## The claims -/

/-- C1: hybrid eligibility holds iff the class resolved (by case-insensitive
name match) from the schema declares a vectorizer that is non-empty after
trimming and not "none" case-insensitively, or a module configuration with at
least one key; and whenever eligibility is false, both traversal reports
contain the hybrid-skipped warning line for that collection. -/
theorem C1_hybrid_eligibility (s : Schema) (schema : Option Schema)
    (collection refProp q : String) (limit : Int)
    (targetProps baseProps refProps : List String) (res : QueryResultO) (resR : QueryResultR) :
    (hasVectorizer (some s) collection = true ↔
      ∃ cls, findClassCI s collection = some cls ∧
        ((∃ v, cls.vectorizer = some v ∧ jsTrim v ≠ "" ∧ jsToLower (jsTrim v) ≠ "none") ∨
          (∃ ks, cls.moduleConfigKeys = some ks ∧ ks ≠ [])))
    ∧ (hasVectorizer schema collection = false →
        ("Warning: class " ++ collection ++
          " has no vectorizer configured; hybrid search was skipped.")
          ∈ queryOriginLines schema collection q limit targetProps res)
    ∧ (hasVectorizer schema collection = false →
        ("Warning: class " ++ collection ++
          " has no vectorizer configured; hybrid search was skipped.")
          ∈ queryWithRefsLines schema collection refProp q limit baseProps refProps resR) := by
  refine ⟨?_, ?_, ?_⟩
  · cases hf : findClassCI s collection with
    | none => simp [hasVectorizer, hf]
    | some c =>
      simp only [hasVectorizer, hf]
      simpa using classEligible_iff c
  · intro h
    simp [queryOriginLines, h]
  · intro h
    simp [queryWithRefsLines, h]

/-- C2 counterexample: the claim says every query-building call path attaches
the hybrid clause iff the class is hybrid-eligible, but `query`
(src/src/weaviate.ts line 78) hardcodes `useHybrid = true`: for a class whose
vectorizer is "none" and with no module configuration, eligibility is false
yet the plain query still carries the hybrid clause (and its report carries
no warning, since the warning is only emitted when `useHybrid` is false). -/
theorem C2_counterexample :
    hasVectorizer (some (Schema.mk [ClassSchema.mk "Etapa" [] (some "none") none])) "Etapa"
      = false
    ∧ (querySpec (some (Schema.mk [ClassSchema.mk "Etapa" [] (some "none") none]))
        "Etapa" "q" ["name"] 3).hybrid = some "q" := by
  constructor
  · decide
  · rfl

/-- C2 amended: the generative-answer query and both traversal modes attach
the hybrid clause iff the resolved class is hybrid-eligible under the
vectorizer/module-config rule, and otherwise omit it and emit a warning —
the generative path prepends a hybrid-generation-skipped warning to its
returned string, and each traversal report carries its skip-warning line;
the plain query, whose eligibility check is disabled in the source, always
attaches the hybrid clause with the raw query text and returns the raw
response with no warning. -/
theorem C2_hybrid_attachment (schema : Option Schema) (collection refProp q json : String)
    (limit : Int) (targetProps baseProps refProps : List String)
    (res : QueryResultO) (resR : QueryResultR) :
    ((generateTextSpec schema collection q targetProps limit).hybrid = some q ↔
      hasVectorizer schema collection = true)
    ∧ (hasVectorizer schema collection = false →
        generateTextReturn schema collection json =
          "Warning: class " ++ collection ++
            " has no vectorizer configured; hybrid generation skipped.\n" ++ json)
    ∧ ((queryOriginSpec schema collection q limit targetProps).hybrid = some q ↔
      hasVectorizer schema collection = true)
    ∧ (hasVectorizer schema collection = false →
        ("Warning: class " ++ collection ++
          " has no vectorizer configured; hybrid search was skipped.")
          ∈ queryOriginLines schema collection q limit targetProps res)
    ∧ ((queryWithRefsSpec schema collection refProp q limit baseProps refProps).hybrid
        = some q ↔ hasVectorizer schema collection = true)
    ∧ (hasVectorizer schema collection = false →
        ("Warning: class " ++ collection ++
          " has no vectorizer configured; hybrid search was skipped.")
          ∈ queryWithRefsLines schema collection refProp q limit baseProps refProps resR)
    ∧ (querySpec schema collection q targetProps limit).hybrid = some q
    ∧ queryReturn schema collection json = json := by
  refine ⟨?_, ?_, ?_, ?_, ?_, ?_, ?_, rfl⟩
  · cases h : hasVectorizer schema collection <;> simp [generateTextSpec, h]
  · intro h
    simp [generateTextReturn, h]
  · cases h : hasVectorizer schema collection <;> simp [queryOriginSpec, h]
  · intro h
    simp [queryOriginLines, h]
  · cases h : hasVectorizer schema collection <;> simp [queryWithRefsSpec, h]
  · intro h
    simp [queryWithRefsLines, h]
  · simp [querySpec]

/-- C3: a trimmed, non-empty caller-supplied collection name absent from the
fresh cached snapshot causes no plain fetch and exactly one forced refresh;
if the name is still absent from the store's names, resolution fails with an
error listing all currently known collection names, the class-schema fetch is
never reached, and the query tool executes no store query. -/
theorem C3_unknown_collection (store : Schema) (now : Nat) (cch : CollectionCache)
    (s q : String) (classSchemaOf : String → ClassSchema) (targetProperties : List String)
    (limit : Option Int)
    (hfresh : now - cch.fetchedAt < COLLECTION_CACHE_TTL_MS)
    (hne : jsTrim s ≠ "")
    (hmiss : jsTrim s ∉ cch.names) :
    (resolveCollection store now (some cch) (some s)).plainFetch = false
    ∧ (resolveCollection store now (some cch) (some s)).forcedFetch = true
    ∧ (jsTrim s ∉ storeCollectionNames store →
        (resolveCollection store now (some cch) (some s)).result =
          .error ("Collection '" ++ jsTrim s ++ "' was not found. Available collections: " ++
            (if decide (0 < (storeCollectionNames store).length)
             then String.intercalate ", " (storeCollectionNames store) else "none"))
        ∧ (resolveCollection store now (some cch) (some s)).classSchemaFetched = false
        ∧ (queryToolRun store now (some cch) (some s) classSchemaOf q targetProperties limit).2
            = 0) := by
  have hc1 : cch.names.contains (jsTrim s) = false := by simpa using hmiss
  have hne' : (jsTrim s != "") = true := by simpa using hne
  have hplain : getCollectionNames store now (some cch) false = (cch.names, some cch, false) := by
    simp [getCollectionNames, hfresh]
  have hforced : getCollectionNames store now (some cch) true =
      (storeCollectionNames store, some (CollectionCache.mk (storeCollectionNames store) now),
        true) := by
    simp [getCollectionNames]
  have hres : resolveCollection store now (some cch) (some s)
      = resolveWithName store now (some cch) false cch.names (jsTrim s) := by
    simp [resolveCollection, hplain, hne']
  by_cases hmiss2 : jsTrim s ∈ storeCollectionNames store
  · have hc2 : (storeCollectionNames store).contains (jsTrim s) = true := by simpa using hmiss2
    have : resolveWithName store now (some cch) false cch.names (jsTrim s) =
        { result := .ok (jsTrim s)
          cache := some (CollectionCache.mk (storeCollectionNames store) now)
          plainFetch := false, forcedFetch := true, classSchemaFetched := true } := by
      simp [resolveWithName, hforced, hmiss, hmiss2]
    refine ⟨by rw [hres, this], by rw [hres, this], fun habs => absurd hmiss2 habs⟩
  · have hc2 : (storeCollectionNames store).contains (jsTrim s) = false := by simpa using hmiss2
    have hout : resolveWithName store now (some cch) false cch.names (jsTrim s) =
        { result := .error ("Collection '" ++ jsTrim s ++
            "' was not found. Available collections: " ++
            (if decide (0 < (storeCollectionNames store).length)
             then String.intercalate ", " (storeCollectionNames store) else "none"))
          cache := some (CollectionCache.mk (storeCollectionNames store) now)
          plainFetch := false, forcedFetch := true, classSchemaFetched := false } := by
      simp [resolveWithName, hforced, hmiss, hmiss2]
    refine ⟨by rw [hres, hout], by rw [hres, hout], fun _ => ⟨by rw [hres, hout], by rw [hres, hout], ?_⟩⟩
    simp only [queryToolRun, hres, hout]

/-- C3 witness: concrete run with a fresh two-name cache, an unknown candidate
" C ", and a store that still does not know it. -/
theorem C3_unknown_collection_witness :
    (resolveCollection (Schema.mk [ClassSchema.mk "Etapa" [] none none]) 1000
        (some (CollectionCache.mk ["A", "B"] 500)) (some " C ")).forcedFetch = true := by
  have h := C3_unknown_collection (Schema.mk [ClassSchema.mk "Etapa" [] none none]) 1000
    (CollectionCache.mk ["A", "B"] 500) " C " "q" (fun _ => ClassSchema.mk "" [] none none)
    ["name"] none (by decide) (by decide) (by decide)
  exact h.2.1

theorem mem_refsForClass_iff (s : Schema) (C : String) (e : RefEdge)
    (hnd : (s.classes.map (fun c => c.className)).Nodup) :
    e ∈ refsForClass (some s) C ↔
      ∃ cls ∈ s.classes, cls.className = C ∧ ∃ pr ∈ cls.properties,
        pr.name = e.prop ∧ e.targets = refTargets pr ∧ e.targets ≠ [] := by
  simp only [refsForClass]
  cases hf : findClass s C with
  | none =>
    constructor
    · intro h
      simp at h
    · rintro ⟨cls, hm, hname, -⟩
      unfold findClass at hf
      have := List.find?_eq_none.mp hf cls hm
      simp [hname] at this
  | some cls =>
    have hcls := (find?_class_eq_iff s C cls hnd).mp hf
    simp only [Option.map_some', Option.getD_some, List.mem_filter, List.mem_map]
    constructor
    · rintro ⟨⟨pr, hpr, heq⟩, hne⟩
      refine ⟨cls, hcls.1, hcls.2, pr, hpr, ?_, ?_, ?_⟩
      · rw [← heq]
      · rw [← heq]
      · rw [← heq] at hne ⊢
        simpa [List.isEmpty_iff] using hne
    · rintro ⟨cls', hm', hname', pr, hpr, hprname, htargets, hne⟩
      have hceq : cls' = cls :=
        List.inj_on_of_nodup_map hnd hm' hcls.1 (by rw [hname', hcls.2])
      subst hceq
      refine ⟨⟨pr, hpr, ?_⟩, ?_⟩
      · cases e
        simp_all
      · simpa [List.isEmpty_iff] using hne

theorem mem_incomingRefsForClass_iff (s : Schema) (C D p : String) :
    (InRefEdge.mk D p) ∈ incomingRefsForClass (some s) C ↔
      ∃ cls ∈ s.classes, cls.className = D ∧ ∃ pr ∈ cls.properties,
        pr.name = p ∧ C ∈ refTargets pr := by
  simp only [incomingRefsForClass]
  rw [List.mem_flatten]
  constructor
  · rintro ⟨l, hl, h⟩
    rw [List.mem_map] at hl
    obtain ⟨cls, hm, rfl⟩ := hl
    rw [List.mem_filterMap] at h
    obtain ⟨pr, hpr, hsome⟩ := h
    by_cases hC : C ∈ refTargets pr
    · rw [if_pos hC] at hsome
      simp only [Option.some.injEq, InRefEdge.mk.injEq] at hsome
      exact ⟨cls, hm, hsome.1, pr, hpr, hsome.2, hC⟩
    · rw [if_neg hC] at hsome
      exact absurd hsome (by simp)
  · rintro ⟨cls, hm, hname, pr, hpr, hprname, hC⟩
    refine ⟨_, List.mem_map.mpr ⟨cls, hm, rfl⟩, ?_⟩
    rw [List.mem_filterMap]
    exact ⟨pr, hpr, by rw [if_pos hC, hname, hprname]⟩

/-- C4: the outgoing view lists exactly the properties of the class named `C`
with at least one uppercase-initial data-type entry (with exactly those
entries as targets), the incoming view is exactly the set of `(D, p)` pairs
such that property `p` of class `D` has `C` among its uppercase-initial
targets, and hence the incoming view is the exact reverse of the outgoing
view. Stated for schemas with distinct class names. -/
theorem C4_reference_index (s : Schema) (C D p : String) (e : RefEdge)
    (hnd : (s.classes.map (fun c => c.className)).Nodup) :
    (e ∈ refsForClass (some s) C ↔
      ∃ cls ∈ s.classes, cls.className = C ∧ ∃ pr ∈ cls.properties,
        pr.name = e.prop ∧ e.targets = refTargets pr ∧ e.targets ≠ [])
    ∧ ((InRefEdge.mk D p) ∈ incomingRefsForClass (some s) C ↔
      ∃ cls ∈ s.classes, cls.className = D ∧ ∃ pr ∈ cls.properties,
        pr.name = p ∧ C ∈ refTargets pr)
    ∧ ((InRefEdge.mk D p) ∈ incomingRefsForClass (some s) C ↔
      ∃ e2 ∈ refsForClass (some s) D, e2.prop = p ∧ C ∈ e2.targets) := by
  refine ⟨mem_refsForClass_iff s C e hnd, mem_incomingRefsForClass_iff s C D p, ?_⟩
  rw [mem_incomingRefsForClass_iff s C D p]
  constructor
  · rintro ⟨cls, hm, hname, pr, hpr, hprname, hC⟩
    refine ⟨RefEdge.mk p (refTargets pr), ?_, rfl, hC⟩
    rw [mem_refsForClass_iff s D _ hnd]
    exact ⟨cls, hm, hname, pr, hpr, hprname, rfl, List.ne_nil_of_mem hC⟩
  · rintro ⟨e2, he2, hprop, hC⟩
    rw [mem_refsForClass_iff s D e2 hnd] at he2
    obtain ⟨cls, hm, hname, pr, hpr, hprname, htargets, -⟩ := he2
    exact ⟨cls, hm, hname, pr, hpr, by rw [hprname, hprop], by rw [← htargets]; exact hC⟩

/-- C4 witness: the reference index of a two-class schema where `Etapa`
references `Fluxo` via `belongsToFluxo`. -/
theorem C4_reference_index_witness :
    (RefEdge.mk "belongsToFluxo" ["Fluxo"]) ∈ refsForClass
      (some (Schema.mk
        [ClassSchema.mk "Etapa" [PropertySchema.mk "belongsToFluxo" ["Fluxo"]] none none,
         ClassSchema.mk "Fluxo" [PropertySchema.mk "name" ["text"]] none none])) "Etapa"
    ∧ (InRefEdge.mk "Etapa" "belongsToFluxo") ∈ incomingRefsForClass
      (some (Schema.mk
        [ClassSchema.mk "Etapa" [PropertySchema.mk "belongsToFluxo" ["Fluxo"]] none none,
         ClassSchema.mk "Fluxo" [PropertySchema.mk "name" ["text"]] none none])) "Fluxo" := by
  have h := C4_reference_index
    (Schema.mk
      [ClassSchema.mk "Etapa" [PropertySchema.mk "belongsToFluxo" ["Fluxo"]] none none,
       ClassSchema.mk "Fluxo" [PropertySchema.mk "name" ["text"]] none none])
    "Etapa" "Etapa" "belongsToFluxo" (RefEdge.mk "belongsToFluxo" ["Fluxo"]) (by decide)
  have h2 := C4_reference_index
    (Schema.mk
      [ClassSchema.mk "Etapa" [PropertySchema.mk "belongsToFluxo" ["Fluxo"]] none none,
       ClassSchema.mk "Fluxo" [PropertySchema.mk "name" ["text"]] none none])
    "Fluxo" "Etapa" "belongsToFluxo" (RefEdge.mk "belongsToFluxo" ["Fluxo"]) (by decide)
  constructor
  · exact h.1.mpr
      ⟨ClassSchema.mk "Etapa" [PropertySchema.mk "belongsToFluxo" ["Fluxo"]] none none,
        by decide, by decide,
        PropertySchema.mk "belongsToFluxo" ["Fluxo"], by decide, by decide, by decide, by decide⟩
  · exact h2.2.1.mpr
      ⟨ClassSchema.mk "Etapa" [PropertySchema.mk "belongsToFluxo" ["Fluxo"]] none none,
        by decide, by decide,
        PropertySchema.mk "belongsToFluxo" ["Fluxo"], by decide, by decide, by decide⟩

/-- The schema of the C5 counterexample: `Base` references `T` via `hasT`,
and `T` declares 13 properties, none of them among the requested reference
fields. -/
def c5schema : Schema := Schema.mk
  [ClassSchema.mk "Base"
      [PropertySchema.mk "name" ["text"], PropertySchema.mk "hasT" ["T"]] none none,
   ClassSchema.mk "T"
      [PropertySchema.mk "f1" ["text"], PropertySchema.mk "f2" ["text"],
       PropertySchema.mk "f3" ["text"], PropertySchema.mk "f4" ["text"],
       PropertySchema.mk "f5" ["text"], PropertySchema.mk "f6" ["text"],
       PropertySchema.mk "f7" ["text"], PropertySchema.mk "f8" ["text"],
       PropertySchema.mk "f9" ["text"], PropertySchema.mk "f10" ["text"],
       PropertySchema.mk "f11" ["text"], PropertySchema.mk "f12" ["text"],
       PropertySchema.mk "f13" ["text"]] none none]

/-- C5 counterexample: for the resolved target class `T` with 13 missed
fields (a set exceeding 12 entries), the claim says the report shows exactly
the first 12 followed by an ellipsis, but the one-hop traversal caps the
target-class preview at 10: the report carries the 10-entry line and not the
12-entry line. -/
theorem C5_counterexample :
    ("Missed fields on T: f1, f2, f3, f4, f5, f6, f7, f8, f9, f10, ..."
      ∈ queryWithRefsLines (some c5schema) "Base" "hasT" "q" 5 ["name"] ["name"]
          (QueryResultR.mk []))
    ∧ ("Missed fields on T: f1, f2, f3, f4, f5, f6, f7, f8, f9, f10, f11, f12, ..."
      ∉ queryWithRefsLines (some c5schema) "Base" "hasT" "q" 5 ["name"] ["name"]
          (QueryResultR.mk [])) := by
  constructor
  · decide
  · decide

/-- C5 amended: the missed fields of a class are its declared properties
minus the requested set, in declared order; the reports cap the preview at 12
entries (followed by an ellipsis marker) for the base class of either
traversal mode, and at 10 entries for a resolved target class of the one-hop
traversal. -/
theorem C5_missed_fields (schema : Option Schema) (s : Schema)
    (collection refProp q t nm : String) (limit : Int) (missed : List String) (cap : Nat)
    (targetProps baseProps refProps : List String) (res : QueryResultO) (resR : QueryResultR) :
    (missedLine nm missed cap = "Missed fields on " ++ nm ++ ": " ++
        String.intercalate ", " (missed.take cap) ++
        (if cap < missed.length then ", ..." else ""))
    ∧ ((classPropNames schema collection).filter (fun p => !(targetProps.contains p)) ≠ [] →
        missedLine collection
          ((classPropNames schema collection).filter (fun p => !(targetProps.contains p))) 12
          ∈ queryOriginLines schema collection q limit targetProps res)
    ∧ ((classPropNames schema collection).filter (fun p => !(baseProps.contains p)) ≠ [] →
        missedLine collection
          ((classPropNames schema collection).filter (fun p => !(baseProps.contains p))) 12
          ∈ queryWithRefsLines schema collection refProp q limit baseProps refProps resR)
    ∧ (t ∈ refTargetsForProp (some s) collection refProp →
        (classPropNames (some s) t).filter (fun p => !(refProps.contains p)) ≠ [] →
        missedLine t ((classPropNames (some s) t).filter (fun p => !(refProps.contains p))) 10
          ∈ queryWithRefsLines (some s) collection refProp q limit baseProps refProps resR) := by
  refine ⟨?_, ?_, ?_, ?_⟩
  · unfold missedLine
    by_cases hcl : cap < missed.length
    · simp [List.length_take, hcl, Nat.min_eq_left hcl.le]
    · simp [List.length_take, hcl, Nat.min_eq_right (Nat.le_of_not_lt hcl)]
  · intro h
    have h' : ((classPropNames schema collection).filter
        (fun p => !(targetProps.contains p))).isEmpty = false := by
      simpa [List.isEmpty_iff] using h
    have hseg : missedLine collection
        ((classPropNames schema collection).filter (fun p => !(targetProps.contains p))) 12
        ∈ (if ((classPropNames schema collection).filter
              (fun p => !(targetProps.contains p))).isEmpty then []
           else [missedLine collection
             ((classPropNames schema collection).filter (fun p => !(targetProps.contains p))) 12]) := by
      rw [h']
      simp
    simp only [queryOriginLines]
    exact List.mem_append_left _ (List.mem_append_left _ (List.mem_append_left _
      (List.mem_append_right _ hseg)))
  · intro h
    have h' : ((classPropNames schema collection).filter
        (fun p => !(baseProps.contains p))).isEmpty = false := by
      simpa [List.isEmpty_iff] using h
    have hseg : missedLine collection
        ((classPropNames schema collection).filter (fun p => !(baseProps.contains p))) 12
        ∈ (if ((classPropNames schema collection).filter
              (fun p => !(baseProps.contains p))).isEmpty then []
           else [missedLine collection
             ((classPropNames schema collection).filter (fun p => !(baseProps.contains p))) 12]) := by
      rw [h']
      simp
    simp only [queryWithRefsLines]
    exact List.mem_append_left _ (List.mem_append_left _ (List.mem_append_left _
      (List.mem_append_left _ (List.mem_append_left _ (List.mem_append_right _ hseg)))))
  · intro ht h
    have h' : ((classPropNames (some s) t).filter
        (fun p => !(refProps.contains p))).isEmpty = false := by
      simpa [List.isEmpty_iff] using h
    have hte : (refTargetsForProp (some s) collection refProp).isEmpty = false := by
      simp only [List.isEmpty_eq_false_iff_exists_mem]
      exact ⟨t, ht⟩
    have hmem : missedLine t
        ((classPropNames (some s) t).filter (fun p => !(refProps.contains p))) 10
        ∈ ((refTargetsForProp (some s) collection refProp).map (fun t2 =>
            let tProps := classPropNames (some s) t2
            let missedRef := tProps.filter (fun p => !(refProps.contains p))
            if missedRef.isEmpty then [] else [missedLine t2 missedRef 10])).flatten := by
      rw [List.mem_flatten]
      refine ⟨_, List.mem_map.mpr ⟨t, ht, rfl⟩, ?_⟩
      simp only [h']
      simp
    have hseg : missedLine t
        ((classPropNames (some s) t).filter (fun p => !(refProps.contains p))) 10
        ∈ (if (refTargetsForProp (some s) collection refProp).isEmpty then []
           else ((refTargetsForProp (some s) collection refProp).map (fun t2 =>
              let tProps := classPropNames (some s) t2
              let missedRef := tProps.filter (fun p => !(refProps.contains p))
              if missedRef.isEmpty then [] else [missedLine t2 missedRef 10])).flatten) := by
      rw [hte]
      simpa using hmem
    simp only [queryWithRefsLines]
    exact List.mem_append_left _ (List.mem_append_left _ (List.mem_append_left _
      (List.mem_append_left _ (List.mem_append_right _ hseg))))

/-- C6: when validation succeeds, the projection sent in the query is the
requested field list deduplicated, preserving the order of first occurrence
(a sublist of the request with the same members and no duplicates); in
particular `["a", "a", "b"]` becomes `["a", "b"]`. -/
theorem C6_projection_dedup (collection : String) (cs : ClassSchema)
    (props validated : List String) (schema : Option Schema) (q : String) (limit : Int)
    (h : validateTargetProperties collection cs props = .ok validated) :
    validated = dedupFirst props
    ∧ validated.Nodup
    ∧ (∀ a, a ∈ validated ↔ a ∈ props)
    ∧ validated.Sublist props
    ∧ (querySpec schema collection q validated limit).fields
        = String.intercalate " " (dedupFirst props)
    ∧ dedupFirst ["a", "a", "b"] = ["a", "b"] := by
  have hv : validated = dedupFirst props := by
    simp only [validateTargetProperties] at h
    rcases hf : (dedupFirst props).find?
        (fun p => !((dedupFirst (cs.properties.map (fun pr => pr.name))).contains p)) with _ | p
    · rw [hf] at h
      simpa using h.symm
    · rw [hf] at h
      cases h
  subst hv
  refine ⟨rfl, dedupFirst_nodup props, fun a => dedupFirst_mem a props,
    dedupFirst_sublist props, by simp [querySpec], by simp [dedupFirst]⟩

/-- C6 witness: requesting `["a", "a", "b"]` against a class declaring `a`
and `b` validates to `["a", "b"]`, with all the deduplication properties. -/
theorem C6_projection_dedup_witness :
    (["a", "b"] : List String) = dedupFirst ["a", "a", "b"]
    ∧ (["a", "b"] : List String).Nodup
    ∧ (∀ x, x ∈ (["a", "b"] : List String) ↔ x ∈ (["a", "a", "b"] : List String))
    ∧ (["a", "b"] : List String).Sublist ["a", "a", "b"]
    ∧ (querySpec none "C" "q" ["a", "b"] 3).fields = String.intercalate " " (dedupFirst ["a", "a", "b"])
    ∧ dedupFirst ["a", "a", "b"] = ["a", "b"] :=
  C6_projection_dedup "C"
    (ClassSchema.mk "C" [PropertySchema.mk "a" ["text"], PropertySchema.mk "b" ["text"]] none none)
    ["a", "a", "b"] ["a", "b"] none "q" 3
    (by simp [validateTargetProperties, dedupFirst])

/-- C7: a schema-fetch failure is absorbed by both traversals — the schema is
treated as unknown, hybrid eligibility is false, the link advertisement is
empty, and the traversal still returns a report consisting of exactly the
header, the skip warning, the match section and the closing line (no
collections line, no missed-fields lines, no link catalogue); a failure of
the query execution itself aborts the call with an error wrapping the
original cause. -/
theorem C7_failure_semantics (schema : Option Schema) (collection refProp q : String)
    (limit : Int) (targetProps baseProps refProps : List String)
    (res : QueryResultO) (resR : QueryResultR) (e : String) :
    hasVectorizer none collection = false
    ∧ refsForClass none collection = []
    ∧ incomingRefsForClass none collection = []
    ∧ queryOrigin none collection q limit targetProps (.ok res)
        = .ok (String.intercalate "\n"
          (["Hybrid search results for Etapa (query=\"" ++ q ++ "\", limit="
              ++ toString limit ++ ")."]
           ++ ["Warning: class " ++ collection
              ++ " has no vectorizer configured; hybrid search was skipped."]
           ++ (if ((List.lookup "Etapa" res.dataGet).getD []).isEmpty
               then ["No Etapa matched your query."]
               else "Matched Etapas with their linked Fluxo and Entidade(s):" ::
                 ((List.lookup "Etapa" res.dataGet).getD []).map (fun r =>
                   let item := simplifyRow r
                   let entTxt := if item.entidades.isEmpty then "none"
                     else String.intercalate ", " item.entidades
                   "- Etapa: " ++ item.etapa.getD "undefined" ++ " | Fluxo: " ++
                     item.fluxo.getD "none" ++ " | Entidades (via Ficheiro): " ++ entTxt))
           ++ ["You can deepen the search by following these connections:"]))
    ∧ queryWithRefs none collection refProp q limit baseProps refProps (.ok resR)
        = .ok (String.intercalate "\n"
          (["Hybrid search for " ++ collection ++ " following reference '" ++ refProp ++
              "' (query=\"" ++ q ++ "\", limit=" ++ toString limit ++ ")."]
           ++ ["Warning: class " ++ collection
              ++ " has no vectorizer configured; hybrid search was skipped."]
           ++ (if ((List.lookup collection resR.dataGet).getD []).isEmpty
               then ["No " ++ collection ++ " matched your query or no '" ++ refProp ++
                 "' references found."]
               else ("Traversed '" ++ refProp ++ "' -> " ++ "UnknownTarget" ++ ":") ::
                 ((List.lookup collection resR.dataGet).getD []).map (fun r =>
                   let item := summarizeRefRow refProp r
                   let refsText := if item.2.isEmpty then "none"
                     else String.intercalate ", " item.2
                   "- " ++ collection ++ ": " ++ item.1 ++ " | " ++ refProp ++ ": " ++ refsText))
           ++ ["You can deepen the search by following these connections:"]))
    ∧ queryOrigin schema collection q limit targetProps (.error e)
        = .error ("Query failed: " ++ e)
    ∧ queryWithRefs schema collection refProp q limit baseProps refProps (.error e)
        = .error ("Query with refs failed: " ++ e) := by
  refine ⟨rfl, rfl, rfl, ?_, ?_, rfl, rfl⟩
  · simp only [queryOrigin, queryOriginLines]
    simp [hasVectorizer, schemaClassNames, classPropNames, refsForClass,
      incomingRefsForClass, Function.comp_def]
  · simp only [queryWithRefs, queryWithRefsLines]
    simp [hasVectorizer, schemaClassNames, classPropNames, refsForClass,
      incomingRefsForClass, refTargetsForProp, Function.comp_def]

/-- C8: the reference-target lookup is total and returns `[]` whenever the
schema is unavailable, the class is unknown, or the property is absent; and
`queryWithRefs` with an unresolvable reference property still issues the
best-effort projection requesting that property with the caller's reference
fields (no per-type fragments) and, when rows come back, reports the
traversal target as `UnknownTarget` instead of failing. -/
theorem C8_ref_targets_degrade (s : Schema) (schema : Option Schema)
    (collection refProp q : String) (limit : Int) (baseProps refProps : List String)
    (resR : QueryResultR) :
    refTargetsForProp none collection refProp = []
    ∧ (findClass s collection = none → refTargetsForProp (some s) collection refProp = [])
    ∧ (∀ cls, findClass s collection = some cls →
        cls.properties.find? (fun p => p.name == refProp) = none →
        refTargetsForProp (some s) collection refProp = [])
    ∧ (refTargetsForProp schema collection refProp = [] →
        queryWithRefsFields schema collection refProp baseProps refProps
          = jsTrim (String.intercalate " " baseProps ++
              (" " ++ refProp ++ " \x7b " ++ String.intercalate " " refProps ++ " \x7d")))
    ∧ (refTargetsForProp schema collection refProp = [] →
        (List.lookup collection resR.dataGet).getD [] ≠ [] →
        ("Traversed '" ++ refProp ++ "' -> " ++ "UnknownTarget" ++ ":")
          ∈ queryWithRefsLines schema collection refProp q limit baseProps refProps resR) := by
  refine ⟨rfl, ?_, ?_, ?_, ?_⟩
  · intro h
    simp [refTargetsForProp, h]
  · intro cls h hp
    simp [refTargetsForProp, h, hp]
  · intro h
    simp [queryWithRefsFields, h]
  · intro h hrows
    have hsum : (((List.lookup collection resR.dataGet).getD []).map
        (summarizeRefRow refProp)).isEmpty = false := by
      rw [List.isEmpty_eq_false_iff_exists_mem]
      obtain ⟨x, hx⟩ := List.exists_mem_of_ne_nil _ hrows
      exact ⟨_, List.mem_map_of_mem _ hx⟩
    have hseg : ("Traversed '" ++ refProp ++ "' -> " ++ "UnknownTarget" ++ ":")
        ∈ (if (((List.lookup collection resR.dataGet).getD []).map
              (summarizeRefRow refProp)).isEmpty then
            ["No " ++ collection ++ " matched your query or no '" ++ refProp ++
              "' references found."]
          else
            ("Traversed '" ++ refProp ++ "' -> " ++
              (if decide (0 < (refTargetsForProp schema collection refProp).length)
               then String.intercalate " | " (refTargetsForProp schema collection refProp)
               else "UnknownTarget") ++ ":") ::
              (((List.lookup collection resR.dataGet).getD []).map
                (summarizeRefRow refProp)).map (fun item =>
                  let refsText := if item.2.isEmpty then "none"
                    else String.intercalate ", " item.2
                  "- " ++ collection ++ ": " ++ item.1 ++ " | " ++ refProp ++ ": " ++ refsText)) := by
      rw [hsum, h]
      simp
    simp only [queryWithRefsLines]
    exact List.mem_append_left _ (List.mem_append_left _ (List.mem_append_left _
      (List.mem_append_right _ hseg)))

theorem mem_collectEntidades_iff (r : EtapaRow) (n : String) :
    n ∈ collectEntidades r ↔
      n ≠ "" ∧ ∃ f ∈ r.hasFicheiros, ∃ en ∈ f.hasEntidades, en.name = some n := by
  unfold collectEntidades
  rw [List.mem_filterMap]
  constructor
  · rintro ⟨en, hen, hsome⟩
    rw [List.mem_flatten] at hen
    obtain ⟨l, hl, henl⟩ := hen
    rw [List.mem_map] at hl
    obtain ⟨f, hf, rfl⟩ := hl
    rcases hname : en.name with _ | m
    · rw [hname] at hsome
      simp at hsome
    · rw [hname] at hsome
      simp only [Option.ite_none_right_eq_some, Option.some.injEq] at hsome
      obtain ⟨hm, rfl⟩ := hsome
      exact ⟨by simpa using hm, f, hf, en, henl, hname⟩
  · rintro ⟨hn, f, hf, en, hen, hname⟩
    refine ⟨en, ?_, ?_⟩
    · rw [List.mem_flatten]
      exact ⟨_, List.mem_map_of_mem _ hf, hen⟩
    · rw [hname]
      simp [hn]

/-- C9: each origin-traversal row is summarized with `fluxo` equal to the
name of the first `belongsToFluxo` entry (absent when the list is empty or
nameless, rendered `none`), and `entidades` equal to the deduplicated set of
non-empty names collected across all `hasFicheiros` entries' `hasEntidades`
entries; concretely, a row with fluxo "F1" and entidades E1, E2, E1 is
rendered with `Fluxo: F1` and `Entidades (via Ficheiro): E1, E2`. -/
theorem C9_origin_summarization (r : EtapaRow) (n : String) :
    (simplifyRow r).fluxo = r.belongsToFluxo.head?.bind (fun x => x.name)
    ∧ (simplifyRow r).entidades.Nodup
    ∧ (n ∈ (simplifyRow r).entidades ↔
        (n ≠ "" ∧ ∃ f ∈ r.hasFicheiros, ∃ en ∈ f.hasEntidades, en.name = some n))
    ∧ (r.belongsToFluxo = [] → (simplifyRow r).fluxo.getD "none" = "none")
    ∧ ("- Etapa: EtapaX | Fluxo: F1 | Entidades (via Ficheiro): E1, E2"
        ∈ queryOriginLines none "Etapa" "q" 5 ["name"]
            (QueryResultO.mk [("Etapa",
              [EtapaRow.mk (some "EtapaX") [NamedObj.mk (some "F1")]
                 [FicheiroRow.mk [NamedObj.mk (some "E1"), NamedObj.mk (some "E2")],
                  FicheiroRow.mk [NamedObj.mk (some "E1")]]])])) := by
  refine ⟨rfl, dedupFirst_nodup _, ?_, ?_, ?_⟩
  · rw [show (simplifyRow r).entidades = dedupFirst (collectEntidades r) from rfl]
    rw [dedupFirst_mem]
    exact mem_collectEntidades_iff r n
  · intro h
    simp [simplifyRow, h]
  · have h1 : String.intercalate ", " ["E1", "E2"] = "E1, E2" := rfl
    have h2 : toString (5 : Int) = "5" := rfl
    simp [queryOriginLines, hasVectorizer, schemaClassNames, classPropNames,
      simplifyRow, collectEntidades, dedupFirst, refsForClass, incomingRefsForClass,
      h1, h2]

/-- A prefix of a string's characters survives appending on the right. -/
theorem data_prefix_extend {X : List Char} (a b : String) (h : X <+: a.data) :
    X <+: (a ++ b).data := by
  rw [String.data_append]
  exact h.trans (List.prefix_append _ _)

/-- Two strings with same-length, different character prefixes differ. -/
theorem string_ne_of_distinct_heads {X Y : List Char} {t s : String}
    (hx : X <+: t.data) (hy : Y <+: s.data) (hlen : X.length = Y.length) (hne : X ≠ Y) :
    t ≠ s := by
  intro he
  subst he
  rcases List.prefix_or_prefix_of_prefix hx hy with h | h
  · exact hne (h.eq_of_length hlen)
  · exact hne ((h.eq_of_length hlen.symm).symm)

/-- C10: `queryOrigin` extracts its rows only from the response key `Etapa`:
for a collection other than "Etapa", with rows returned only under the
collection's own key, the report states that no Etapa matched and carries no
matched-rows header, while the (fixed) report header is still emitted and the
missed-fields line and the outgoing-link catalogue are still computed from
the given collection's class. -/
theorem C10_etapa_key_only (schema : Option Schema) (collection q : String) (limit : Int)
    (targetProps : List String) (res : QueryResultO) (rows : List EtapaRow)
    (hne : collection ≠ "Etapa")
    (hkey : List.lookup "Etapa" res.dataGet = none)
    (hc : List.lookup collection res.dataGet = some rows)
    (hrows : rows ≠ []) :
    "No Etapa matched your query." ∈ queryOriginLines schema collection q limit targetProps res
    ∧ "Matched Etapas with their linked Fluxo and Entidade(s):"
        ∉ queryOriginLines schema collection q limit targetProps res
    ∧ ("Hybrid search results for Etapa (query=\"" ++ q ++ "\", limit=" ++ toString limit
        ++ ")." ∈ queryOriginLines schema collection q limit targetProps res)
    ∧ ((classPropNames schema collection).filter (fun p => !(targetProps.contains p)) ≠ [] →
        missedLine collection
          ((classPropNames schema collection).filter (fun p => !(targetProps.contains p))) 12
          ∈ queryOriginLines schema collection q limit targetProps res)
    ∧ (refsForClass schema collection ≠ [] →
        "From Etapa (outgoing refs):" ∈ queryOriginLines schema collection q limit targetProps res
        ∧ ∀ e ∈ refsForClass schema collection,
            ("- " ++ e.prop ++ " -> " ++ String.intercalate " | " e.targets)
              ∈ queryOriginLines schema collection q limit targetProps res) := by
  refine ⟨?_, ?_, ?_, ?_, ?_⟩
  · simp [queryOriginLines, hkey]
  · intro hmem
    simp [queryOriginLines, hkey, missedLine] at hmem
    rcases hmem with h | ⟨-, h⟩ | ⟨-, h⟩ | ⟨-, h⟩ | ⟨-, a, -, h⟩ | ⟨-, a, -, h⟩
    · exact string_ne_of_distinct_heads (X := ['M']) (Y := ['H']) (by decide)
        (data_prefix_extend _ _ (data_prefix_extend _ _ (data_prefix_extend _ _
          (data_prefix_extend _ _ (by decide))))) (by decide) (by decide) h
    · exact string_ne_of_distinct_heads (X := ['M']) (Y := ['W']) (by decide)
        (data_prefix_extend _ _ (data_prefix_extend _ _ (by decide)))
        (by decide) (by decide) h
    · exact string_ne_of_distinct_heads (X := ['M']) (Y := ['C']) (by decide)
        (data_prefix_extend _ _ (data_prefix_extend _ _ (by decide)))
        (by decide) (by decide) h
    · exact string_ne_of_distinct_heads (X := ['M', 'a']) (Y := ['M', 'i']) (by decide)
        (data_prefix_extend _ _ (data_prefix_extend _ _ (data_prefix_extend _ _
          (data_prefix_extend _ _ (by decide))))) (by decide) (by decide) h
    · exact absurd h (string_ne_of_distinct_heads (X := ['-']) (Y := ['M'])
        (data_prefix_extend _ _ (data_prefix_extend _ _ (data_prefix_extend _ _
          (by decide)))) (by decide) (by decide) (by decide))
    · exact absurd h (string_ne_of_distinct_heads (X := ['-']) (Y := ['M'])
        (data_prefix_extend _ _ (data_prefix_extend _ _ (data_prefix_extend _ _
          (data_prefix_extend _ _ (by decide))))) (by decide) (by decide) (by decide))
  · simp [queryOriginLines]
  · intro h
    have h' : ((classPropNames schema collection).filter
        (fun p => !(targetProps.contains p))).isEmpty = false := by
      simpa [List.isEmpty_iff] using h
    have hseg : missedLine collection
        ((classPropNames schema collection).filter (fun p => !(targetProps.contains p))) 12
        ∈ (if ((classPropNames schema collection).filter
              (fun p => !(targetProps.contains p))).isEmpty then []
           else [missedLine collection
             ((classPropNames schema collection).filter (fun p => !(targetProps.contains p))) 12]) := by
      rw [h']
      simp
    simp only [queryOriginLines]
    exact List.mem_append_left _ (List.mem_append_left _ (List.mem_append_left _
      (List.mem_append_right _ hseg)))
  · intro h
    have h' : (refsForClass schema collection).isEmpty = false := by
      simpa [List.isEmpty_iff] using h
    constructor
    · have hseg : "From Etapa (outgoing refs):"
          ∈ (if (refsForClass schema collection).isEmpty then []
             else "From Etapa (outgoing refs):" ::
               (refsForClass schema collection).map (fun r =>
                 "- " ++ r.prop ++ " -> " ++ String.intercalate " | " r.targets)) := by
        rw [h']
        simp
      simp only [queryOriginLines]
      exact List.mem_append_left _ (List.mem_append_right _ hseg)
    · intro e he
      have hseg : ("- " ++ e.prop ++ " -> " ++ String.intercalate " | " e.targets)
          ∈ (if (refsForClass schema collection).isEmpty then []
             else "From Etapa (outgoing refs):" ::
               (refsForClass schema collection).map (fun r =>
                 "- " ++ r.prop ++ " -> " ++ String.intercalate " | " r.targets)) := by
        rw [h']
        exact List.mem_cons_of_mem _ (List.mem_map_of_mem _ he)
      simp only [queryOriginLines]
      exact List.mem_append_left _ (List.mem_append_right _ hseg)

/-- C10 witness: a concrete call with collection "Fluxo" whose rows come back
under the key "Fluxo" only. -/
theorem C10_etapa_key_only_witness :
    "No Etapa matched your query." ∈ queryOriginLines none "Fluxo" "q" 5 ["name"]
      (QueryResultO.mk [("Fluxo", [EtapaRow.mk (some "X") [] []])]) :=
  (C10_etapa_key_only none "Fluxo" "q" 5 ["name"]
    (QueryResultO.mk [("Fluxo", [EtapaRow.mk (some "X") [] []])])
    [EtapaRow.mk (some "X") [] []]
    (by decide) (by decide) (by decide) (by decide)).1
